import Mathlib

/-!
Shallow embedding of the vibekit quality-gate repository.

Source files embedded:
- skills/agentient-quality-assurance/scripts/quality_gate.py
- skills/agentient-python-core/scripts/python_quality_gate.py
- skills/agentient-quality-assurance/scripts/coverage_validator.py

External effects (subprocess invocation, filesystem reads, wall-clock time)
are modelled as explicit parameters; pure parsing/decision logic is
translated function-by-function from the Python source. Python machine
floats in the coverage validator are modelled as rationals; Python ints as
Int; JSON field accesses of the form `d.get(key, default)` are modelled as
Option fields read with getD.
-/

/-! ## Python string helpers

Small total models of the Python string primitives the source uses:
`str.split(sep, maxsplit)`, `str.find`, slicing, `str.rfind`, `int(...)`,
`str.isdigit`, and the `in` containment test. All index arithmetic is in
characters, matching Python string semantics. -/

/-- Python `sub in s` for a nonempty separator, via splitOn. -/
def containsStr (s pat : String) : Bool :=
  (s.splitOn pat).length > 1

/-- Python `s.startswith(pre)`, by character list. -/
def pyStartswith (s pre : String) : Bool :=
  pre.toList.isPrefixOf s.toList

/-- Python `s.endswith(post)`, by character list. -/
def pyEndswith (s post : String) : Bool :=
  post.toList.isSuffixOf s.toList

/-- Characters of `s` from index `a` (inclusive) to `b` (exclusive),
Python `s[a:b]` for nonnegative `a`, `b`. -/
def sliceChars (s : String) (a b : Nat) : String :=
  (((s.toList).drop a).take (b - a)).asString

/-- Python `s.split(sep, 1)` when `sep` occurs in `s`; `none` models the
`ValueError` from unpacking when `sep` is absent. -/
def pySplitOnce (s sep : String) : Option (String × String) :=
  match s.splitOn sep with
  | [] => none
  | [_] => none
  | x :: rest => some (x, String.intercalate sep rest)

/-- Python `s.split(':', 3)`: at most four pieces, remainder rejoined. -/
def pySplit3Colon (s : String) : List String :=
  let xs := s.splitOn ":"
  if xs.length ≤ 4 then xs else xs.take 3 ++ [String.intercalate ":" (xs.drop 3)]

/-- First index (from `i`) at which `sub` occurs in the character list. -/
def findSubAux (sub : List Char) : List Char → Nat → Option Nat
  | [], i => if sub.isEmpty then some i else none
  | c :: rest, i =>
    if sub.isPrefixOf (c :: rest) then some i else findSubAux sub rest (i + 1)

/-- Python `s.find(sub, start)`, with `none` in place of `-1`. -/
def pyFindFrom (s sub : String) (start : Nat) : Option Nat :=
  (findSubAux sub.toList (s.toList.drop start) 0).map (· + start)

/-- Python `s.rfind(c)` for a single character, `none` in place of `-1`. -/
def rfindIdx (s : String) (c : Char) : Option Nat :=
  (s.toList.reverse.findIdx? (· = c)).map (fun i => s.length - 1 - i)

/-- Python `int(s)`: optional surrounding whitespace and sign before a
digit run; `none` models the `ValueError` on anything else. -/
def pyInt (s : String) : Option Int :=
  let t := s.trim
  if pyStartswith t "-" then ((t.drop 1).toNat?).map (fun n => -(n : Int))
  else if pyStartswith t "+" then ((t.drop 1).toNat?).map (fun n => (n : Int))
  else (t.toNat?).map (fun n => (n : Int))

/-- Python `s.isdigit()`: nonempty and all digit characters. -/
def pyIsDigit (s : String) : Bool :=
  !s.isEmpty && s.toList.all Char.isDigit

/-- Final path component, Python `pathlib.Path(p).name` for slash paths. -/
def path_basename (p : String) : String :=
  ((p.splitOn "/").reverse).headD p

/-- Python `pathlib.Path(p).suffix`: the final dot-extension of the last
component, empty when the last dot is leading, trailing or absent. -/
def path_suffix (p : String) : String :=
  let name := path_basename p
  match rfindIdx name '.' with
  | some i => if 0 < i ∧ i < name.length - 1 then sliceChars name i name.length else ""
  | none => ""

/-! ## Data model: quality_gate.py -/

/-- `Violation.severity` values used by quality_gate.py. -/
inductive Severity
  | ERROR
  | WARNING
  | INFO
  deriving DecidableEq, Repr

/-- The `Violation` dataclass of quality_gate.py. Lines and columns are
Python ints. -/
structure Violation where
  file : String
  line : Int
  column : Int
  rule : String
  message : String
  severity : Severity
  tool : String
  deriving DecidableEq, Repr

/-- Result of one `subprocess.run` call site: a completed process with its
return code and (already shape-analysed) stdout, or the two caught
exceptions `subprocess.TimeoutExpired` / `FileNotFoundError`. -/
inductive Outcome (α : Type)
  | ok (returncode : Int) (stdout : α)
  | timeout
  | notFound
  deriving DecidableEq, Repr

/-! ### Ruff JSON-array output -/

/-- One element of ruff `--output-format=json`. Fields model
`item.get('location', {}).get('row'/'column', 0)` etc.: `none` stands for
a missing key at either level. -/
structure RuffLocation where
  row : Option Int
  column : Option Int
  deriving DecidableEq, Repr

structure RuffFinding where
  filename : Option String
  code : Option String
  message : Option String
  location : Option RuffLocation
  deriving DecidableEq, Repr

/-- Ruff stdout as seen by the parser: the raw text, and whether
`json.loads` yields a findings array or raises `JSONDecodeError`. The
empty string is always `invalid ""`. -/
inductive RuffStdout
  | invalid (raw : String)
  | valid (findings : List RuffFinding) (raw : String)
  deriving DecidableEq, Repr

def RuffStdout.raw : RuffStdout → String
  | .invalid r => r
  | .valid _ r => r

/-- quality_gate.py lines 117-126: map one ruff finding onto a Violation.
Missing `code` defaults to `"UNKNOWN"` for the rule but to `""` for the
severity test, exactly as the two distinct `item.get` calls do. -/
def parseRuffItem (fp : String) (item : RuffFinding) : Violation :=
  { file := item.filename.getD fp
    line := (match item.location with | some l => l.row.getD 0 | none => 0)
    column := (match item.location with | some l => l.column.getD 0 | none => 0)
    rule := item.code.getD "UNKNOWN"
    message := item.message.getD ""
    severity := if pyStartswith (item.code.getD "") "E" then .ERROR else .WARNING
    tool := "ruff" }

/-- quality_gate.py lines 106-149: the `ruff check` step of
`run_python_checks`, including the `TimeoutExpired` and
`FileNotFoundError` handlers. On a completed run, stdout is parsed only
when nonempty; `json.JSONDecodeError` is swallowed (`pass`). -/
def ruffCheckPart (fp : String) (o : Outcome RuffStdout) : List Violation :=
  match o with
  | .timeout =>
    [⟨fp, 0, 0, "TIMEOUT", "Ruff check timed out after 30 seconds", .ERROR, "ruff"⟩]
  | .notFound =>
    [⟨fp, 0, 0, "MISSING_TOOL", "Ruff not installed. Install with: pip install ruff", .ERROR, "ruff"⟩]
  | .ok _ s =>
    if s.raw ≠ "" then
      match s with
      | .invalid _ => []
      | .valid items _ => items.map (parseRuffItem fp)
    else []

/-- quality_gate.py lines 152-172: the `ruff format --check` step. Stdout
is ignored; a nonzero return code yields the FORMAT warning; timeout and
missing tool are silently skipped (`pass  # Format check is optional`). -/
def ruffFormatPart (fp : String) (o : Outcome Unit) : List Violation :=
  match o with
  | .timeout => []
  | .notFound => []
  | .ok rc _ =>
    if rc ≠ 0 then
      [⟨fp, 0, 0, "FORMAT", "File is not formatted. Run: ruff format", .WARNING, "ruff"⟩]
    else []

/-! ### mypy colon-delimited output -/

/-- quality_gate.py lines 186-210: parse one line of mypy output
(`file:line:col: error: message [code]`). `none` models `continue`
(guards failed or `ValueError`/`IndexError`). -/
def parseMypyLine (fp : String) (line : String) : Option Violation :=
  if containsStr line ":" ∧ containsStr line "error:" then
    let parts := pySplit3Colon line
    if parts.length ≥ 4 then
      match pyInt (parts.getD 1 "") with
      | none => none
      | some line_num =>
        let p2 := (parts.getD 2 "").trim
        let col_num : Int := if pyIsDigit p2 then ((p2.toNat?).getD 0 : Int) else 0
        let message_part := (parts.getD 3 "").trim
        let code :=
          if message_part.contains '[' ∧ message_part.contains ']' then
            sliceChars message_part ((rfindIdx message_part '[').getD 0 + 1)
              ((rfindIdx message_part ']').getD 0)
          else "TYPE"
        let message_part :=
          if message_part.contains '[' ∧ message_part.contains ']' then
            (sliceChars message_part 0 ((rfindIdx message_part '[').getD 0)).trim
          else message_part
        some ⟨fp, line_num, col_num, code,
              ((message_part.replace "error:" "").trim), .ERROR, "mypy"⟩
    else none
  else none

/-- quality_gate.py lines 175-224: the mypy step of `run_python_checks`.
Output lines are parsed only when the return code is nonzero and stdout
nonempty; timeout yields a WARNING; a missing mypy is silently skipped. -/
def mypyPart (fp : String) (o : Outcome String) : List Violation :=
  match o with
  | .timeout =>
    [⟨fp, 0, 0, "TIMEOUT", "mypy check timed out after 45 seconds", .WARNING, "mypy"⟩]
  | .notFound => []
  | .ok rc out =>
    if rc ≠ 0 ∧ out ≠ "" then
      (out.trim.splitOn "\n").filterMap (parseMypyLine fp)
    else []

/-- quality_gate.py lines 101-226: `run_python_checks`, appending the
three steps in source order. -/
def run_python_checks (fp : String) (ruffCheck : Outcome RuffStdout)
    (ruffFormat : Outcome Unit) (mypy : Outcome String) : List Violation :=
  ruffCheckPart fp ruffCheck ++ ruffFormatPart fp ruffFormat ++ mypyPart fp mypy

/-! ### ESLint JSON output -/

/-- One entry of an eslint `--format=json` message array. `severity`
models `message.get('severity', 1)`. -/
structure EslintMessage where
  line : Option Int
  column : Option Int
  ruleId : Option String
  message : Option String
  severity : Option Int
  deriving DecidableEq, Repr

structure EslintFileResult where
  filePath : Option String
  messages : List EslintMessage
  deriving DecidableEq, Repr

inductive EslintStdout
  | invalid (raw : String)
  | valid (files : List EslintFileResult) (raw : String)
  deriving DecidableEq, Repr

def EslintStdout.raw : EslintStdout → String
  | .invalid r => r
  | .valid _ r => r

/-- quality_gate.py lines 244-254: map one nested eslint message onto a
Violation. The Python `severity == 2 and 'ERROR' or 'WARNING'` idiom is
an if-then-else on the numeric code. -/
def parseEslintMessage (fp : String) (fr : EslintFileResult) (m : EslintMessage) : Violation :=
  { file := fr.filePath.getD fp
    line := m.line.getD 0
    column := m.column.getD 0
    rule := m.ruleId.getD "UNKNOWN"
    message := m.message.getD ""
    severity := if m.severity.getD 1 = 2 then .ERROR else .WARNING
    tool := "eslint" }

/-- quality_gate.py lines 233-277: the eslint step of
`run_typescript_checks`. -/
def eslintPart (fp : String) (o : Outcome EslintStdout) : List Violation :=
  match o with
  | .timeout =>
    [⟨fp, 0, 0, "TIMEOUT", "ESLint check timed out after 30 seconds", .ERROR, "eslint"⟩]
  | .notFound =>
    [⟨fp, 0, 0, "MISSING_TOOL", "ESLint not installed. Install with: npm install eslint", .ERROR, "eslint"⟩]
  | .ok _ s =>
    if s.raw ≠ "" then
      match s with
      | .invalid _ => []
      | .valid files _ => files.flatMap (fun fr => fr.messages.map (parseEslintMessage fp fr))
    else []

/-! ### tsc parenthetical output -/

/-- quality_gate.py lines 291-313: parse one line of tsc output
(`file(line,col): error TSxxxx: message`). `none` models both the guard
failures (line silently ignored) and the caught `ValueError`/`IndexError`
(`continue`). -/
def parseTscLine (line : String) : Option Violation :=
  if line.contains '(' ∧ line.contains ')' ∧ containsStr line "error TS" then
    match pySplitOnce line "(" with
    | none => none
    | some (file_part, rest) =>
      match pySplitOnce rest ")" with
      | none => none
      | some (pos_part, msg_part) =>
        match pos_part.splitOn "," with
        | [line_str, col_str] =>
          if containsStr msg_part "error TS" then
            let a := (pyFindFrom msg_part "TS" 0).getD 0
            let bOpt := pyFindFrom msg_part ":" a
            let error_code :=
              match bOpt with
              | some b => sliceChars msg_part a b
              | none => sliceChars msg_part a (msg_part.length - 1)
            let message :=
              (match bOpt with
               | some b => sliceChars msg_part (b + 1) msg_part.length
               | none => msg_part).trim
            match pyInt line_str, pyInt col_str with
            | some ln, some cn =>
              some ⟨file_part.trim, ln, cn, error_code, message, .ERROR, "tsc"⟩
            | _, _ => none
          else none
        | _ => none
  else none

/-- quality_gate.py lines 282-327: the tsc invocation block (run only for
`.ts`/`.tsx` files; see `run_typescript_checks`). -/
def tscPart (fp : String) (o : Outcome String) : List Violation :=
  match o with
  | .timeout =>
    [⟨fp, 0, 0, "TIMEOUT", "TypeScript check timed out after 45 seconds", .WARNING, "tsc"⟩]
  | .notFound => []
  | .ok rc out =>
    if rc ≠ 0 ∧ out ≠ "" then
      (out.trim.splitOn "\n").filterMap parseTscLine
    else []

/-- quality_gate.py lines 228-329: `run_typescript_checks`. -/
def run_typescript_checks (fp : String) (eslint : Outcome EslintStdout)
    (tsc : Outcome String) : List Violation :=
  eslintPart fp eslint ++
    (if [".ts", ".tsx"].contains (path_suffix fp) then tscPart fp tsc else [])

/-! ### Cache, language detection, validate_file, run -/

/-- quality_gate.py line 56: `CACHE_TTL = 1800`. -/
def CACHE_TTL : ℚ := 1800

/-- One value of the `_cache` dict: `(time.time(), violations)`. -/
structure CacheEntry where
  time : ℚ
  violations : List Violation
  deriving DecidableEq, Repr

/-- The `_cache` dict, as an association list in which `List.lookup`
finds the most recent binding (modelling dict assignment). -/
abbrev Cache := List (String × CacheEntry)

/-- quality_gate.py lines 59-65 and 70-72: `LANGUAGE_MAP` /
`detect_language`. -/
def LANGUAGE_MAP : List (String × String) :=
  [(".py", "python"), (".ts", "typescript"), (".tsx", "typescript"),
   (".js", "javascript"), (".jsx", "javascript")]

def detect_language (p : String) : Option String :=
  LANGUAGE_MAP.lookup (path_suffix p)

/-- quality_gate.py lines 82-94: `check_cache`. `file_hash` is the result
of `get_file_hash` (the sha256 of the file bytes, or `""` on a read
error). Note the lookup key is `str(file_path)`; the hash is only tested
for emptiness. -/
def check_cache (cache : Cache) (now : ℚ) (file_path : String)
    (file_hash : String) : Option (List Violation) :=
  if file_hash = "" then none
  else
    match cache.lookup file_path with
    | some e => if now - e.time < CACHE_TTL then some e.violations else none
    | none => none

/-- quality_gate.py lines 96-99: `update_cache` (dict assignment keyed by
`str(file_path)`). -/
def update_cache (cache : Cache) (now : ℚ) (file_path : String)
    (violations : List Violation) : Cache :=
  (file_path, ⟨now, violations⟩) :: cache

/-- Everything external that one `validate_file` call can observe: the
target path, whether it exists, its content hash, the clock, and the
outcome of each tool invocation that would be issued on a cache miss. -/
structure FileCtx where
  path : String
  exists? : Bool
  hash : String
  now : ℚ
  pyRuffCheck : Outcome RuffStdout
  pyRuffFormat : Outcome Unit
  pyMypy : Outcome String
  tsEslint : Outcome EslintStdout
  tsTsc : Outcome String

/-- Mutable state of a `QualityGate` instance plus the class-level cache. -/
structure GateState where
  cache : Cache
  violations : List Violation
  deriving Repr

/-- quality_gate.py lines 331-366: `validate_file`. Returns the bool
result together with the updated state. -/
def validate_file (ctx : FileCtx) (st : GateState) : Bool × GateState :=
  if ¬ctx.exists? then (true, st)
  else
    match check_cache st.cache ctx.now ctx.path ctx.hash with
    | some cached =>
      (cached.isEmpty, { st with violations := st.violations ++ cached })
    | none =>
      match detect_language ctx.path with
      | none => (true, st)
      | some language =>
        let file_violations :=
          if language = "python" then
            run_python_checks ctx.path ctx.pyRuffCheck ctx.pyRuffFormat ctx.pyMypy
          else
            run_typescript_checks ctx.path ctx.tsEslint ctx.tsTsc
        (file_violations.isEmpty,
         ⟨update_cache st.cache ctx.now ctx.path file_violations,
          st.violations ++ file_violations⟩)

/-- quality_gate.py lines 410-426: `QualityGate().run(file_path)` on a
fresh instance (`violations = []`), given the class-level cache. Returns
the process exit code (`0 if passed else 2`) and the final state. -/
def runGate (ctx : FileCtx) (cache : Cache) : Nat × GateState :=
  let r := validate_file ctx ⟨cache, []⟩
  ((if r.1 then 0 else 2), r.2)

/-! ### main() input dispatch of quality_gate.py -/

/-- The parsed stdin document: `data.get('tool_input', {}).get('file_path')`.
`none` models a missing key at either level; `some ""` a present but
falsy value. -/
structure HookData where
  file_path : Option String
  deriving DecidableEq, Repr

/-- Stdin as `main` sees it: a terminal (`sys.stdin.isatty()`), or piped
input on which `json.load` either succeeds or raises `JSONDecodeError`
(which also covers absent input). -/
inductive StdinInput
  | tty
  | piped (parsed : Option HookData)
  deriving DecidableEq, Repr

/-- What the dispatch part of `main` decides: exit immediately with a
code, or proceed to run the gate on a path. -/
inductive MainOutcome
  | exitCode (n : Nat)
  | proceed (path : String)
  deriving DecidableEq, Repr

/-- Python truthiness of the extracted `file_path` value. -/
def truthyOpt (s : Option String) : Bool :=
  match s with
  | some str => str ≠ ""
  | none => false

/-- quality_gate.py lines 429-460: the input-dispatch portion of `main`,
with `args` standing for `sys.argv[1:]`. The source reads the same
`tool_input.file_path` field twice (the second read is the dead
`content parameter` fallback); both reads are kept. -/
def mainDispatch (stdin : StdinInput) (args : List String) : MainOutcome :=
  match stdin with
  | .piped (some data) =>
    let fp := data.file_path
    let fp := if truthyOpt fp then fp else data.file_path
    if truthyOpt fp then .proceed (fp.getD "") else .exitCode 0
  | .piped none =>
    match args with
    | [] => .exitCode 1
    | p :: _ => .proceed p
  | .tty =>
    match args with
    | [] => .exitCode 1
    | p :: _ => .proceed p

/-! ## python_quality_gate.py (the single-tool variant) -/

/-- python_quality_gate.py: the parsed stdin hook document. -/
structure PyHook where
  file_path : Option String
  deriving DecidableEq, Repr

/-- Result of `read_stdin_json`: exit immediately or hand the data on. -/
inductive PycoreInput
  | exit (n : Nat)
  | data (d : PyHook)
  deriving DecidableEq, Repr

/-- python_quality_gate.py lines 40-46: `read_stdin_json`. `none` models
a `json.JSONDecodeError` (absent or malformed stdin), on which the script
exits 0. -/
def read_stdin_json (parsed : Option PyHook) : PycoreInput :=
  match parsed with
  | none => .exit 0
  | some d => .data d

/-- python_quality_gate.py lines 106-114: format one ruff finding as an
error line. `row`/`col` model `location.get('row', '?')` with a string
question mark default. -/
def fmtRuffFinding (f : RuffFinding) : String :=
  let code := f.code.getD "???"
  let message := f.message.getD "Unknown error"
  let row := match f.location with
    | some l => match l.row with | some n => toString n | none => "?"
    | none => "?"
  let col := match f.location with
    | some l => match l.column with | some n => toString n | none => "?"
    | none => "?"
  "  Line " ++ row ++ ":" ++ col ++ " - [" ++ code ++ "] " ++ message

/-- python_quality_gate.py lines 92-119: `check_ruff_linting`, given the
return code and stdout of the ruff run. Findings are reported only when
the return code is nonzero and stdout nonempty; an unparsable stdout
yields exactly one message carrying the first 200 characters of the raw
output. -/
def check_ruff_linting (returncode : Int) (stdout : RuffStdout) : List String :=
  if returncode ≠ 0 ∧ stdout.raw ≠ "" then
    match stdout with
    | .valid findings _ =>
      if findings.isEmpty then [] else findings.map fmtRuffFinding
    | .invalid raw => ["  Failed to parse Ruff output: " ++ raw.take 200]
  else []

/-! ## coverage_validator.py -/

/-- The `CoverageReport` dataclass, percentages as rationals. -/
structure CoverageReport where
  total_percent : ℚ
  statement_percent : ℚ
  branch_percent : ℚ
  function_percent : ℚ
  line_percent : ℚ
  uncovered_files : List (String × ℚ)
  deriving DecidableEq, Repr

/-- Thresholds read from the environment in `__init__`
(defaults 80 / 70). -/
structure CoverageValidatorCfg where
  backend_threshold : ℚ
  frontend_threshold : ℚ
  deriving DecidableEq, Repr

/-- coverage_validator.py lines 54-62: `detect_report_type`. -/
def detect_report_type (name : String) : Option String :=
  if name = "coverage.json" then some "coverage.py"
  else if name = "coverage-summary.json" then some "jest"
  else if pyEndswith name ".info" || name = "lcov.info" then some "lcov"
  else none

/-- The `totals` object of a coverage.py JSON report. Each field models
`totals.get(key, 0.0)`; a missing `totals` key is `⟨none, none⟩`. -/
structure PyTotals where
  percent_covered : Option ℚ
  percent_covered_branches : Option ℚ
  deriving DecidableEq, Repr

/-- A coverage.py JSON report: `totals` plus the `files` dict in
encounter order. Each file value models
`file_data.get('summary', {}).get('percent_covered', 0.0)`. -/
structure PyCovData where
  totals : PyTotals
  files : List (String × Option ℚ)
  deriving DecidableEq, Repr

/-- Ordering used to embed the stable ascending `list.sort(key=...)` on
`(path, percent)` pairs. -/
def pctLE (a b : String × ℚ) : Bool :=
  decide (a.2 ≤ b.2)

/-- coverage_validator.py lines 64-88: `parse_coverage_py_report`.
`coverage.py` does not track function coverage, hence the 0.0 sentinel. -/
def parse_coverage_py_report (backend_threshold : ℚ) (d : PyCovData) : CoverageReport :=
  let total_percent := d.totals.percent_covered.getD 0
  let uncovered := d.files.filterMap (fun pr =>
    let file_percent := pr.2.getD 0
    if file_percent < backend_threshold then some (pr.1, file_percent) else none)
  let uncovered := uncovered.mergeSort pctLE
  { total_percent := total_percent
    statement_percent := d.totals.percent_covered.getD 0
    branch_percent := d.totals.percent_covered_branches.getD 0
    function_percent := 0
    line_percent := d.totals.percent_covered.getD 0
    uncovered_files := uncovered }

/-- One value of a Jest/Vitest coverage-summary.json object. Each field
models `entry.get(metric, {}).get('pct', 0.0)`: `none` when either level
is missing. -/
structure JestEntry where
  statements : Option ℚ
  branches : Option ℚ
  functions : Option ℚ
  lines : Option ℚ
  deriving DecidableEq, Repr

/-- coverage_validator.py lines 90-124: `parse_jest_report`. The report
is the JSON object as an ordered key/value list; `data.get('total', {})`
is a lookup, and the per-file loop skips the `total` key. -/
def parse_jest_report (frontend_threshold : ℚ)
    (data : List (String × JestEntry)) : CoverageReport :=
  let totals := (data.lookup "total").getD ⟨none, none, none, none⟩
  let statement_pct := totals.statements.getD 0
  let branch_pct := totals.branches.getD 0
  let function_pct := totals.functions.getD 0
  let line_pct := totals.lines.getD 0
  let total_percent := (statement_pct + branch_pct + function_pct + line_pct) / 4
  let uncovered := data.filterMap (fun pr =>
    if pr.1 = "total" then none
    else
      let file_line_pct := pr.2.lines.getD 0
      if file_line_pct < frontend_threshold then some (pr.1, file_line_pct) else none)
  let uncovered := uncovered.mergeSort pctLE
  { total_percent := total_percent
    statement_percent := statement_pct
    branch_percent := branch_pct
    function_percent := function_pct
    line_percent := line_pct
    uncovered_files := uncovered }

/-- What `run`/`validate_coverage` print, one constructor per source
branch, carrying exactly the data the source interpolates. -/
inductive GateMessage
  | noReport
  | unknownFormat (name : String)
  | lcovUnsupported
  | parseFailed (err : String)
  | passed (report : CoverageReport) (threshold : ℚ) (stack : String)
  | failed (report : CoverageReport) (threshold : ℚ) (gap : ℚ) (stack : String)
  deriving DecidableEq, Repr

/-- The branches whose message starts with the warning marker. -/
def GateMessage.isWarning : GateMessage → Bool
  | .noReport => true
  | .unknownFormat _ => true
  | .lcovUnsupported => true
  | .parseFailed _ => true
  | .passed _ _ _ => false
  | .failed _ _ _ _ => false

/-- The coverage gap a message reports (present only on failure). -/
def GateMessage.gap? : GateMessage → Option ℚ
  | .failed _ _ g _ => some g
  | _ => none

/-- coverage_validator.py lines 171-220: the threshold decision at the
end of `validate_coverage`: pass iff `total_percent >= threshold`,
otherwise block with `gap = threshold - total_percent`. -/
def decideReport (report : CoverageReport) (threshold : ℚ) (stack : String) :
    Bool × GateMessage :=
  if threshold ≤ report.total_percent then (true, .passed report threshold stack)
  else (false, .failed report threshold (threshold - report.total_percent) stack)

/-- A coverage report file as the validator sees it: its basename and the
outcome of running each schema parser on its bytes (`Except.error`
models any exception raised while opening or parsing, caught by the
`except Exception` at line 168). -/
structure ReportFile where
  name : String
  pyView : Except String PyCovData
  jestView : Except String (List (String × JestEntry))

/-- coverage_validator.py lines 144-220: `validate_coverage`. -/
def validate_coverage (cfg : CoverageValidatorCfg) (f : ReportFile) :
    Bool × GateMessage :=
  match detect_report_type f.name with
  | none => (true, .unknownFormat f.name)
  | some report_type =>
    if report_type = "coverage.py" then
      match f.pyView with
      | .error e => (true, .parseFailed e)
      | .ok d =>
        decideReport (parse_coverage_py_report cfg.backend_threshold d)
          cfg.backend_threshold "Backend (Python)"
    else if report_type = "jest" then
      match f.jestView with
      | .error e => (true, .parseFailed e)
      | .ok d =>
        decideReport (parse_jest_report cfg.frontend_threshold d)
          cfg.frontend_threshold "Frontend (JS/TS)"
    else (true, .lcovUnsupported)

/-- coverage_validator.py lines 128-135: the fixed candidate locations. -/
def search_paths : List String :=
  ["coverage/coverage.json", "coverage/coverage-summary.json",
   "coverage.json", "coverage-summary.json", "coverage/lcov.info", "lcov.info"]

/-- coverage_validator.py lines 126-142: `find_coverage_report` (first
existing candidate wins). -/
def find_coverage_report (pathExists : String → Bool) : Option String :=
  search_paths.find? pathExists

/-- coverage_validator.py lines 222-243: `run`. `readFile` models
opening/parsing the file at a path; the exit code is `0` on pass or
missing report, `2` on a blocking failure. -/
def runValidator (cfg : CoverageValidatorCfg) (explicitPath : Option String)
    (pathExists : String → Bool) (readFile : String → ReportFile) :
    Nat × GateMessage :=
  let report_path :=
    match explicitPath with
    | some p => some p
    | none => find_coverage_report pathExists
  match report_path with
  | none => (0, .noReport)
  | some p =>
    if pathExists p then
      let r := validate_coverage cfg (readFile p)
      ((if r.1 then 0 else 2), r.2)
    else (0, .noReport)

/-! ## Helper lemmas -/

/-- `validate_file` always extends the stored violations by exactly the
sequence it computed (or recalled) for the target file, and returns true
iff that sequence is empty. -/
theorem validate_file_spec (ctx : FileCtx) (st : GateState) :
    ∃ fv : List Violation,
      (validate_file ctx st).1 = fv.isEmpty ∧
      (validate_file ctx st).2.violations = st.violations ++ fv := by
  unfold validate_file
  by_cases he : ctx.exists? = true
  · rw [if_neg (not_not_intro he)]
    cases hc : check_cache st.cache ctx.now ctx.path ctx.hash with
    | some cached =>
      exact ⟨cached, by simp [hc], by simp [hc]⟩
    | none =>
      cases hl : detect_language ctx.path with
      | none => exact ⟨[], by simp [hc, hl], by simp [hc, hl]⟩
      | some language =>
        refine ⟨if language = "python" then
            run_python_checks ctx.path ctx.pyRuffCheck ctx.pyRuffFormat ctx.pyMypy
          else run_typescript_checks ctx.path ctx.tsEslint ctx.tsTsc, ?_, ?_⟩ <;>
          simp [hc, hl]
  · rw [if_pos he]
    exact ⟨[], rfl, by simp⟩

/-- A cache hit: nonempty hash, entry present under the path key, within
the TTL. -/
theorem check_cache_hit (c : Cache) (now : ℚ) (p h : String) (e : CacheEntry)
    (hh : h ≠ "") (hl : c.lookup p = some e) (ht : now - e.time < CACHE_TTL) :
    check_cache c now p h = some e.violations := by
  unfold check_cache
  rw [if_neg hh, hl]
  exact if_pos ht

/-- `check_cache` ignores the content hash (beyond requiring it to be
nonempty): its lookup key is the path string alone. -/
theorem check_cache_hash_irrelevant (c : Cache) (now : ℚ) (p h1 h2 : String)
    (hh1 : h1 ≠ "") (hh2 : h2 ≠ "") :
    check_cache c now p h1 = check_cache c now p h2 := by
  unfold check_cache
  rw [if_neg hh1, if_neg hh2]

/-! ## Claim theorems -/

/-- C1: the decision cache is in fact keyed by the file path string, not
by the content hash. Here an entry for `a.py` was stored at time 0 while
the file hashed to `sha-old`; at time 10 (within the 1800 second TTL) the
file has changed and hashes to `sha-new`, yet `check_cache` still
returns the stale cached violations, and it returns the same answer for
any nonempty hash. The claim requires a changed content hash to be a
cache miss. -/
theorem C1_cache_hit_despite_content_change :
    check_cache
        [("a.py", ⟨0, [⟨"a.py", 1, 1, "E501", "Line too long", .ERROR, "ruff"⟩]⟩)]
        10 "a.py" "sha-new" =
      some [⟨"a.py", 1, 1, "E501", "Line too long", .ERROR, "ruff"⟩] ∧
    check_cache
        [("a.py", ⟨0, [⟨"a.py", 1, 1, "E501", "Line too long", .ERROR, "ruff"⟩]⟩)]
        10 "a.py" "sha-old" =
      check_cache
        [("a.py", ⟨0, [⟨"a.py", 1, 1, "E501", "Line too long", .ERROR, "ruff"⟩]⟩)]
        10 "a.py" "sha-new" := by
  constructor
  · exact check_cache_hit _ _ _ _
      ⟨0, [⟨"a.py", 1, 1, "E501", "Line too long", .ERROR, "ruff"⟩]⟩
      (by decide) (by simp [List.lookup]) (by norm_num [CACHE_TTL])
  · exact check_cache_hash_irrelevant _ _ _ _ _ (by decide) (by decide)

/-- C2 counterexample: piped input that fails to parse as JSON
(`JSONDecodeError`, which also covers absent input), with no CLI argument
to fall back to, makes the aggregator gate exit 1 (after printing usage),
not 0 as the claim requires. -/
theorem C2_counterexample :
    mainDispatch (.piped none) [] = .exitCode 1 ∧
    MainOutcome.exitCode 1 ≠ MainOutcome.exitCode 0 := by
  constructor <;> decide

/-- C2 amended: the python-core gate exits 0 on absent or malformed
stdin; the aggregator exits 0 when the stdin JSON parses but carries no
usable file path, but on absent or malformed stdin JSON it falls back to
the CLI argument and exits 1 (usage error) when none is supplied (also
when stdin is a terminal and no argument is given). -/
theorem C2_amended_input_dispatch (args : List String) (p : String)
    (rest : List String) :
    read_stdin_json none = PycoreInput.exit 0 ∧
    mainDispatch (.piped (some ⟨none⟩)) args = .exitCode 0 ∧
    mainDispatch (.piped (some ⟨some ""⟩)) args = .exitCode 0 ∧
    mainDispatch (.piped none) [] = .exitCode 1 ∧
    mainDispatch .tty [] = .exitCode 1 ∧
    mainDispatch (.piped none) (p :: rest) = .proceed p ∧
    mainDispatch .tty (p :: rest) = .proceed p := by
  refine ⟨rfl, ?_, ?_, rfl, rfl, rfl, rfl⟩ <;> rfl

/-- C4 counterexample: mypy (a tool) cannot be found
(`FileNotFoundError`), the other python tools run clean, and the
aggregator appends no violation at all: in particular no MISSING_TOOL
violation, contrary to the claim that every missing tool yields one. -/
theorem C4_counterexample :
    run_python_checks "f.py" (.ok 0 (.invalid "")) (.ok 0 ()) .notFound = [] ∧
    ¬ ∃ v ∈ run_python_checks "f.py" (.ok 0 (.invalid "")) (.ok 0 ()) .notFound,
        v.rule = "MISSING_TOOL" := by
  constructor <;> decide

/-- C4 amended: timeouts of ruff-check and eslint yield a synthetic
TIMEOUT violation of severity ERROR, timeouts of mypy and tsc one of
severity WARNING; a missing ruff-check or eslint yields a MISSING_TOOL
ERROR violation; a missing mypy, tsc or ruff-format — and a ruff-format
timeout — are silently skipped with no violation. In every case the
condition is converted to a value rather than escaping, and the checks
for the remaining tools still contribute (the result is the concatenation
of the per-tool parts in fixed order). -/
theorem C4_amended_tool_failures (fp : String) (o1 : Outcome RuffStdout)
    (o2 : Outcome Unit) (o3 : Outcome String) (e : Outcome EslintStdout)
    (t : Outcome String) :
    run_python_checks fp o1 o2 o3 =
      ruffCheckPart fp o1 ++ ruffFormatPart fp o2 ++ mypyPart fp o3 ∧
    run_typescript_checks fp e t =
      eslintPart fp e ++
        (if [".ts", ".tsx"].contains (path_suffix fp) then tscPart fp t else []) ∧
    ruffCheckPart fp .timeout =
      [⟨fp, 0, 0, "TIMEOUT", "Ruff check timed out after 30 seconds", .ERROR, "ruff"⟩] ∧
    ruffCheckPart fp .notFound =
      [⟨fp, 0, 0, "MISSING_TOOL", "Ruff not installed. Install with: pip install ruff", .ERROR, "ruff"⟩] ∧
    ruffFormatPart fp .timeout = [] ∧
    ruffFormatPart fp .notFound = [] ∧
    mypyPart fp .timeout =
      [⟨fp, 0, 0, "TIMEOUT", "mypy check timed out after 45 seconds", .WARNING, "mypy"⟩] ∧
    mypyPart fp .notFound = [] ∧
    eslintPart fp .timeout =
      [⟨fp, 0, 0, "TIMEOUT", "ESLint check timed out after 30 seconds", .ERROR, "eslint"⟩] ∧
    eslintPart fp .notFound =
      [⟨fp, 0, 0, "MISSING_TOOL", "ESLint not installed. Install with: npm install eslint", .ERROR, "eslint"⟩] ∧
    tscPart fp .timeout =
      [⟨fp, 0, 0, "TIMEOUT", "TypeScript check timed out after 45 seconds", .WARNING, "tsc"⟩] ∧
    tscPart fp .notFound = [] := by
  exact ⟨rfl, rfl, rfl, rfl, rfl, rfl, rfl, rfl, rfl, rfl, rfl, rfl⟩

/-- C6: for every frontend (coverage-summary.json) report the parsed
`total_percent` is the unweighted arithmetic mean of the four parsed
sub-metric percentages, and the concrete inputs (90, 80, 70, 100) yield
85. -/
theorem C6_frontend_total_is_mean (thr : ℚ) (data : List (String × JestEntry)) :
    (parse_jest_report thr data).total_percent =
      ((parse_jest_report thr data).statement_percent +
       (parse_jest_report thr data).branch_percent +
       (parse_jest_report thr data).function_percent +
       (parse_jest_report thr data).line_percent) / 4 ∧
    (parse_jest_report 70
        [("total", ⟨some 90, some 80, some 70, some 100⟩)]).total_percent = 85 := by
  constructor
  · rfl
  · norm_num [parse_jest_report, List.lookup]

/-- C7: the coverage evaluator passes exactly when
`total_percent >= threshold`; a gap is reported only on failure, it then
equals `threshold - total_percent` exactly, and it is never negative. -/
theorem C7_threshold_gap (r : CoverageReport) (thr : ℚ) (stack : String) :
    ((decideReport r thr stack).1 = true ↔ thr ≤ r.total_percent) ∧
    ((decideReport r thr stack).2.gap? =
      if thr ≤ r.total_percent then none else some (thr - r.total_percent)) ∧
    0 ≤ ((decideReport r thr stack).2.gap?).getD 0 := by
  unfold decideReport
  by_cases h : thr ≤ r.total_percent
  · simp [h, GateMessage.gap?]
  · refine ⟨by simp [h], by simp [h, GateMessage.gap?], ?_⟩
    simp only [h, ite_false, GateMessage.gap?, Option.getD_some]
    have : r.total_percent < thr := lt_of_not_le h
    linarith

/-- C5: a fresh gate run exits 0 exactly when the violation sequence
recorded for the target file is empty, and exits 2 exactly when it is
nonempty (these are the only two exit codes `run` produces). -/
theorem C5_exit_code_matches_verdict (ctx : FileCtx) (cache : Cache) :
    ((runGate ctx cache).1 = 0 ↔ (runGate ctx cache).2.violations = []) ∧
    ((runGate ctx cache).1 = 2 ↔ (runGate ctx cache).2.violations ≠ []) := by
  obtain ⟨fv, h1, h2⟩ := validate_file_spec ctx ⟨cache, []⟩
  have e1 : (runGate ctx cache).1 = if fv.isEmpty then 0 else 2 := by
    show (if (validate_file ctx ⟨cache, []⟩).1 then 0 else 2) = _
    rw [h1]
  have e2 : (runGate ctx cache).2.violations = fv := by
    show (validate_file ctx ⟨cache, []⟩).2.violations = fv
    rw [h2]; simp
  rw [e1, e2]
  cases fv <;> simp

/-- C3 counterexample: the aggregator's JSON-array (ruff) parser, fed a
nonzero exit code and stdout that is not parsable as JSON, emits no
violation at all — in particular not exactly one violation with rule
UNKNOWN as the claim requires. -/
theorem C3_counterexample :
    ruffCheckPart "f.py" (.ok 1 (.invalid "garbage")) = [] ∧
    ¬ ∃ v ∈ ruffCheckPart "f.py" (.ok 1 (.invalid "garbage")), v.rule = "UNKNOWN" := by
  constructor <;> decide

/-- C3 amended: on unparsable linter stdout the aggregator's JSON-array
parser silently emits nothing (the decode error is swallowed); the
python-core variant, given a nonzero exit code and nonempty unparsable
stdout, emits exactly one synthetic error message carrying the raw
output truncated to its first 200 characters, and emits nothing when
stdout is empty. Neither crashes. -/
theorem C3_amended_unparsable_stdout (fp raw : String) (rc : Int)
    (h1 : rc ≠ 0) (h2 : raw ≠ "") :
    ruffCheckPart fp (.ok rc (.invalid raw)) = [] ∧
    check_ruff_linting rc (.invalid raw) =
      ["  Failed to parse Ruff output: " ++ raw.take 200] ∧
    check_ruff_linting rc (.invalid "") = [] := by
  refine ⟨?_, ?_, ?_⟩
  · by_cases h : raw = "" <;> simp [ruffCheckPart, RuffStdout.raw, h]
  · simp [check_ruff_linting, RuffStdout.raw, h1, h2]
  · simp [check_ruff_linting, RuffStdout.raw]

/-- C3 witness: the amended behaviour at a concrete input. -/
theorem C3_amended_unparsable_stdout_witness :
    check_ruff_linting 1 (.invalid "garbage") =
      ["  Failed to parse Ruff output: " ++ "garbage".take 200] := by
  exact (C3_amended_unparsable_stdout "f.py" "garbage" 1 (by decide) (by decide)).2.1

/-- C10: every finding produced by the JSON-array (ruff) parser gets
severity ERROR exactly when its `code` field is present and starts with
the character E, and WARNING in every other case (including an absent
`code` field); the parser output is exactly the per-item mapping. -/
theorem C10_ruff_severity_rule (fp raw : String) (rc : Int)
    (items : List RuffFinding) (h : raw ≠ "") :
    ruffCheckPart fp (.ok rc (.valid items raw)) = items.map (parseRuffItem fp) ∧
    ∀ item : RuffFinding,
      (((parseRuffItem fp item).severity = .ERROR) ↔
        ∃ c, item.code = some c ∧ pyStartswith c "E" = true) ∧
      ((parseRuffItem fp item).severity = .ERROR ∨
       (parseRuffItem fp item).severity = .WARNING) := by
  constructor
  · simp [ruffCheckPart, RuffStdout.raw, h]
  · intro item
    cases hc : item.code with
    | none =>
      have hz : pyStartswith "" "E" = false := by decide
      have hsev : (parseRuffItem fp item).severity = .WARNING := by
        simp [parseRuffItem, hc, hz]
      refine ⟨⟨?_, ?_⟩, Or.inr hsev⟩
      · intro hcontr; rw [hsev] at hcontr; exact Severity.noConfusion hcontr
      · rintro ⟨c2, hc2, _⟩; exact Option.noConfusion hc2
    | some c =>
      by_cases hs : pyStartswith c "E" = true
      · have hsev : (parseRuffItem fp item).severity = .ERROR := by
          simp [parseRuffItem, hc, hs]
        exact ⟨⟨fun _ => ⟨c, rfl, hs⟩, fun _ => hsev⟩, Or.inl hsev⟩
      · have hsev : (parseRuffItem fp item).severity = .WARNING := by
          simp [parseRuffItem, hc, hs]
        refine ⟨⟨?_, ?_⟩, Or.inr hsev⟩
        · intro hcontr; rw [hsev] at hcontr; exact Severity.noConfusion hcontr
        · rintro ⟨c2, hc2, hs2⟩
          cases Option.some.inj hc2
          exact absurd hs2 hs

/-- C10 witness: an E-prefixed code yields ERROR, at a concrete input. -/
theorem C10_ruff_severity_rule_witness :
    ruffCheckPart "f.py" (.ok 1 (.valid [⟨none, some "E501", some "Line too long", none⟩] "x")) =
      [⟨"f.py", 0, 0, "E501", "Line too long", .ERROR, "ruff"⟩] := by
  have h := (C10_ruff_severity_rule "f.py" "x" 1
    [⟨none, some "E501", some "Line too long", none⟩] (by decide)).1
  rw [h]
  decide

/-- `pctLE` is transitive. -/
theorem pctLE_trans : ∀ a b c : String × ℚ, pctLE a b → pctLE b c → pctLE a c := by
  intro a b c hab hbc
  simp only [pctLE, decide_eq_true_eq] at *
  exact le_trans hab hbc

/-- `pctLE` is total. -/
theorem pctLE_total : ∀ a b : String × ℚ, pctLE a b || pctLE b a := by
  intro a b
  simp only [pctLE, Bool.or_eq_true, decide_eq_true_eq]
  exact le_total a.2 b.2

/-- Stability of the embedded sort, in filter form: restricting the
sorted list to any class of mutually tied elements reproduces that class
in its original encounter order. -/
theorem mergeSort_pctLE_filter (p : String × ℚ → Bool)
    (hp : ∀ x y, p x = true → p y = true → pctLE x y = true)
    (l : List (String × ℚ)) :
    (l.mergeSort pctLE).filter p = l.filter p := by
  have hpair : (l.filter p).Pairwise (fun a b => pctLE a b) := by
    apply List.pairwise_of_forall_mem_list
    intro a ha b hb
    exact hp a b (List.mem_filter.mp ha).2 (List.mem_filter.mp hb).2
  have h1 : List.Sublist (l.filter p) (l.mergeSort pctLE) :=
    List.sublist_mergeSort pctLE_trans pctLE_total hpair (List.filter_sublist l)
  have h2 : List.Sublist ((l.filter p).filter p) ((l.mergeSort pctLE).filter p) :=
    h1.filter p
  have h3 : (l.filter p).filter p = l.filter p := by
    apply List.filter_eq_self.mpr
    intro a ha
    exact (List.mem_filter.mp ha).2
  rw [h3] at h2
  have h4 : ((l.mergeSort pctLE).filter p).length = (l.filter p).length :=
    ((List.mergeSort_perm l pctLE).filter p).length_eq
  exact (h2.eq_of_length h4.symm).symm

/-- C8: for both report schemas, `uncovered_files` holds exactly the
per-file entries strictly below the threshold that applies to the
schema (backend threshold for coverage.py reports, frontend threshold
for Jest reports, the `total` key skipped), is a permutation of the
encounter-order filtered list, is sorted ascending by percent, and
restricted to any single percent value equals the encounter-order list
(ties keep their original order). -/
theorem C8_uncovered_files_sorted_stable (cfg : CoverageValidatorCfg)
    (d : PyCovData) (j : List (String × JestEntry)) (c : ℚ)
    (name : String) (pct : ℚ) :
    ((name, pct) ∈ (parse_coverage_py_report cfg.backend_threshold d).uncovered_files ↔
      ∃ s, (name, s) ∈ d.files ∧ s.getD 0 = pct ∧ pct < cfg.backend_threshold) ∧
    (parse_coverage_py_report cfg.backend_threshold d).uncovered_files.Perm
      (d.files.filterMap (fun pr =>
        let file_percent := pr.2.getD 0
        if file_percent < cfg.backend_threshold then some (pr.1, file_percent) else none)) ∧
    (parse_coverage_py_report cfg.backend_threshold d).uncovered_files.Pairwise
      (fun a b => a.2 ≤ b.2) ∧
    ((parse_coverage_py_report cfg.backend_threshold d).uncovered_files.filter
        (fun x => x.2 = c) =
      (d.files.filterMap (fun pr =>
        let file_percent := pr.2.getD 0
        if file_percent < cfg.backend_threshold then some (pr.1, file_percent) else none)).filter
        (fun x => x.2 = c)) ∧
    ((name, pct) ∈ (parse_jest_report cfg.frontend_threshold j).uncovered_files ↔
      ∃ en, (name, en) ∈ j ∧ name ≠ "total" ∧ en.lines.getD 0 = pct ∧
        pct < cfg.frontend_threshold) ∧
    (parse_jest_report cfg.frontend_threshold j).uncovered_files.Perm
      (j.filterMap (fun pr =>
        if pr.1 = "total" then none
        else
          let file_line_pct := pr.2.lines.getD 0
          if file_line_pct < cfg.frontend_threshold then some (pr.1, file_line_pct) else none)) ∧
    (parse_jest_report cfg.frontend_threshold j).uncovered_files.Pairwise
      (fun a b => a.2 ≤ b.2) ∧
    ((parse_jest_report cfg.frontend_threshold j).uncovered_files.filter
        (fun x => x.2 = c) =
      (j.filterMap (fun pr =>
        if pr.1 = "total" then none
        else
          let file_line_pct := pr.2.lines.getD 0
          if file_line_pct < cfg.frontend_threshold then some (pr.1, file_line_pct) else none)).filter
        (fun x => x.2 = c)) := by
  have tied : ∀ x y : String × ℚ, decide (x.2 = c) = true → decide (y.2 = c) = true →
      pctLE x y = true := by
    intro x y hx hy
    simp only [decide_eq_true_eq] at hx hy
    simp only [pctLE, decide_eq_true_eq, hx, hy, le_refl]
  refine ⟨?_, ?_, ?_, ?_, ?_, ?_, ?_, ?_⟩
  · simp only [parse_coverage_py_report, List.mem_mergeSort, List.mem_filterMap]
    constructor
    · rintro ⟨⟨n, s⟩, hmem, hif⟩
      dsimp only at hif
      by_cases hlt : s.getD 0 < cfg.backend_threshold
      · rw [if_pos hlt] at hif
        obtain ⟨he1, he2⟩ := Prod.mk.injEq .. ▸ Option.some.inj hif
        subst he1; subst he2
        exact ⟨s, hmem, rfl, hlt⟩
      · rw [if_neg hlt] at hif
        exact Option.noConfusion hif
    · rintro ⟨s, hmem, rfl, hlt⟩
      exact ⟨(name, s), hmem, by dsimp only; rw [if_pos hlt]⟩
  · simp only [parse_coverage_py_report]
    exact List.mergeSort_perm _ _
  · simp only [parse_coverage_py_report]
    exact (List.sorted_mergeSort pctLE_trans pctLE_total _).imp
      (fun h => by simpa [pctLE] using h)
  · simp only [parse_coverage_py_report]
    exact mergeSort_pctLE_filter _ tied _
  · simp only [parse_jest_report, List.mem_mergeSort, List.mem_filterMap]
    constructor
    · rintro ⟨⟨n, en⟩, hmem, hif⟩
      dsimp only at hif
      by_cases ht : n = "total"
      · rw [if_pos ht] at hif
        exact Option.noConfusion hif
      · rw [if_neg ht] at hif
        by_cases hlt : en.lines.getD 0 < cfg.frontend_threshold
        · rw [if_pos hlt] at hif
          obtain ⟨he1, he2⟩ := Prod.mk.injEq .. ▸ Option.some.inj hif
          subst he1; subst he2
          exact ⟨en, hmem, ht, rfl, hlt⟩
        · rw [if_neg hlt] at hif
          exact Option.noConfusion hif
    · rintro ⟨en, hmem, ht, rfl, hlt⟩
      exact ⟨(name, en), hmem, by dsimp only; rw [if_neg ht, if_pos hlt]⟩
  · simp only [parse_jest_report]
    exact List.mergeSort_perm _ _
  · simp only [parse_jest_report]
    exact (List.sorted_mergeSort pctLE_trans pctLE_total _).imp
      (fun h => by simpa [pctLE] using h)
  · simp only [parse_jest_report]
    exact mergeSort_pctLE_filter _ tied _

/-- C9: when no report is discoverable (no explicit path and no existing
candidate), when the discovered report has an unsupported name, and when
parsing raises, the coverage evaluator exits 0 with a warning-class
message and never 2; whenever validation passes the process exit code is
0. -/
theorem C9_missing_report_never_blocks (cfg : CoverageValidatorCfg)
    (pathExists : String → Bool) (readFile : String → ReportFile)
    (f : ReportFile) (e : String) :
    ((∀ q, pathExists q = false) →
      runValidator cfg none pathExists readFile = (0, .noReport)) ∧
    (detect_report_type f.name = none →
      validate_coverage cfg f = (true, .unknownFormat f.name)) ∧
    (detect_report_type f.name = some "lcov" →
      validate_coverage cfg f = (true, .lcovUnsupported)) ∧
    (detect_report_type f.name = some "coverage.py" → f.pyView = .error e →
      validate_coverage cfg f = (true, .parseFailed e)) ∧
    (detect_report_type f.name = some "jest" → f.jestView = .error e →
      validate_coverage cfg f = (true, .parseFailed e)) ∧
    (∀ p, (validate_coverage cfg (readFile p)).1 = true →
      (runValidator cfg (some p) pathExists readFile).1 = 0) ∧
    GateMessage.noReport.isWarning = true ∧
    (GateMessage.unknownFormat f.name).isWarning = true ∧
    GateMessage.lcovUnsupported.isWarning = true ∧
    (GateMessage.parseFailed e).isWarning = true := by
  refine ⟨?_, ?_, ?_, ?_, ?_, ?_, rfl, rfl, rfl, rfl⟩
  · intro h
    simp [runValidator, find_coverage_report, search_paths, List.find?, h]
  · intro h
    simp [validate_coverage, h]
  · intro h
    simp [validate_coverage, h]
  · intro h1 h2
    simp [validate_coverage, h1, h2]
  · intro h1 h2
    simp [validate_coverage, h1, h2]
  · intro p hp
    by_cases he : pathExists p = true
    · simp [runValidator, he, hp]
    · simp only [Bool.not_eq_true] at he
      simp [runValidator, he]

/-- C9 witness: the warning branches at concrete inputs. -/
theorem C9_missing_report_never_blocks_witness :
    runValidator ⟨80, 70⟩ none (fun _ => false)
        (fun _ => ⟨"coverage.json", .error "boom", .error "boom"⟩) =
      (0, .noReport) ∧
    validate_coverage ⟨80, 70⟩ ⟨"report.xml", .error "boom", .error "boom"⟩ =
      (true, .unknownFormat "report.xml") ∧
    validate_coverage ⟨80, 70⟩ ⟨"lcov.info", .error "boom", .error "boom"⟩ =
      (true, .lcovUnsupported) ∧
    validate_coverage ⟨80, 70⟩ ⟨"coverage.json", .error "boom", .ok []⟩ =
      (true, .parseFailed "boom") ∧
    validate_coverage ⟨80, 70⟩ ⟨"coverage-summary.json", .ok ⟨⟨none, none⟩, []⟩, .error "boom"⟩ =
      (true, .parseFailed "boom") ∧
    (runValidator ⟨80, 70⟩ (some "x/lcov.info") (fun _ => true)
        (fun _ => ⟨"lcov.info", .error "boom", .error "boom"⟩)).1 = 0 := by
  refine ⟨?_, ?_, ?_, ?_, ?_, ?_⟩
  · exact (C9_missing_report_never_blocks ⟨80, 70⟩ (fun _ => false)
      (fun _ => ⟨"coverage.json", .error "boom", .error "boom"⟩)
      ⟨"coverage.json", .error "boom", .error "boom"⟩ "boom").1 (fun _ => rfl)
  · exact (C9_missing_report_never_blocks ⟨80, 70⟩ (fun _ => false)
      (fun _ => ⟨"report.xml", .error "boom", .error "boom"⟩)
      ⟨"report.xml", .error "boom", .error "boom"⟩ "boom").2.1 (by decide)
  · exact (C9_missing_report_never_blocks ⟨80, 70⟩ (fun _ => false)
      (fun _ => ⟨"lcov.info", .error "boom", .error "boom"⟩)
      ⟨"lcov.info", .error "boom", .error "boom"⟩ "boom").2.2.1 (by decide)
  · exact (C9_missing_report_never_blocks ⟨80, 70⟩ (fun _ => false)
      (fun _ => ⟨"coverage.json", .error "boom", .ok []⟩)
      ⟨"coverage.json", .error "boom", .ok []⟩ "boom").2.2.2.1 (by decide) rfl
  · exact (C9_missing_report_never_blocks ⟨80, 70⟩ (fun _ => false)
      (fun _ => ⟨"coverage-summary.json", .ok ⟨⟨none, none⟩, []⟩, .error "boom"⟩)
      ⟨"coverage-summary.json", .ok ⟨⟨none, none⟩, []⟩, .error "boom"⟩ "boom").2.2.2.2.1
      (by decide) rfl
  · exact (C9_missing_report_never_blocks ⟨80, 70⟩ (fun _ => true)
      (fun _ => ⟨"lcov.info", .error "boom", .error "boom"⟩)
      ⟨"lcov.info", .error "boom", .error "boom"⟩ "boom").2.2.2.2.2.1
      "x/lcov.info" (by decide)
